import Mathlib

/-!
# Verification of the AI job orchestration subsystem

Shallow embedding of the AI job orchestration core of the `notimetolie.com`
backend: the job state machine (`apps/api/src/services/ai_processor.py`), the
HTTP submit/cancel operations (`apps/api/src/routers/ai_config.py`), the
provider adapter factory and adapters (`apps/api/src/services/ai_providers.py`),
the credential vault wrapper (`apps/api/src/utils/encryption.py`) and the
WebSocket connection registry (`apps/api/src/websocket/connection_manager.py`).

Database rows are modelled as Lean structures, a commit as the resulting record
value, timestamps as abstract `Nat` instants supplied by the caller, and the
external world (provider responses, context-search results, the target block of
an edit job) as an explicit environment argument.  Exceptions are modelled with
`Except String`.
-/

/-- Python `str.lower()` on the ASCII fragment: character-wise lowering. -/
def py_lower (s : String) : String :=
  String.mk (s.data.map Char.toLower)

/-- Python `str.upper()` on the ASCII fragment: character-wise raising. -/
def py_upper (s : String) : String :=
  String.mk (s.data.map Char.toUpper)

/-- Python truthiness of an `Optional[str]` value: `None` and `""` are falsy. -/
def py_truthy_opt : Option String → Bool
  | none => false
  | some s => s ≠ ""

/-- `list_starts_with p l` is true when `p` is an initial segment of `l`. -/
def list_starts_with : List Char → List Char → Bool
  | [], _ => true
  | _ :: _, [] => false
  | p :: ps, c :: cs => p == c && list_starts_with ps cs

/-- Helper for `str_contains`: does `sub` occur starting at some position? -/
def str_contains_aux (sub : List Char) : List Char → Bool
  | [] => list_starts_with sub []
  | c :: cs => list_starts_with sub (c :: cs) || str_contains_aux sub cs

/-- Python's `sub in s` substring test. -/
def str_contains (s sub : String) : Bool :=
  str_contains_aux sub.data s.data

/-- The six ASCII whitespace characters matched by the regex class `\s`. -/
def py_isspace (c : Char) : Bool :=
  c == ' ' || c == '\t' || c == '\n' || c == '\r' || c == '\x0b' || c == '\x0c'

/-- Whether a match of the regex `https?://[^\s]+` starts at the head of the
list: the literal scheme followed by at least one non-whitespace character. -/
def url_match_here (l : List Char) : Bool :=
  (list_starts_with "http://".data l &&
    (match l.drop 7 with | d :: _ => !py_isspace d | [] => false)) ||
  (list_starts_with "https://".data l &&
    (match l.drop 8 with | d :: _ => !py_isspace d | [] => false))

/-- Whether `re.findall(r'https?://[^\s]+', s)` would find at least one match:
some suffix of `s` begins with an URL match. -/
def has_url_aux : List Char → Bool
  | [] => false
  | c :: cs => url_match_here (c :: cs) || has_url_aux cs

/-- `len(re.findall(r'https?://[^\s]+', content)) > 0` from
`_calculate_confidence_score` (ai_processor.py lines 518-521). -/
def has_url (s : String) : Bool :=
  has_url_aux s.data

/-- `models/ai_config.py` lines 26-32: status of AI job execution. -/
inductive AIJobStatus
  | pending
  | running
  | completed
  | failed
  | cancelled
deriving DecidableEq, Repr

/-- The terminal statuses, i.e. the list tested by `cancel_ai_job`
(ai_config.py line 479). -/
def AIJobStatus.isTerminal : AIJobStatus → Bool
  | .completed => true
  | .failed => true
  | .cancelled => true
  | _ => false

/-- `models/ai_config.py` lines 18-23: types of AI agents / job kinds. -/
inductive AIAgentType
  | content_creator
  | content_researcher
  | content_editor
  | course_designer
deriving DecidableEq, Repr

/-- Token usage accounting of one generation call. -/
structure TokensUsed where
  prompt : Nat
  completion : Nat
  total : Nat
deriving DecidableEq, Repr

/-- The dictionary returned by every provider `generate` method: either the
error variant (`error` non-null) or a content result. -/
structure GenerationResult where
  error : Option String
  content : Option String
  finish_reason : Option String
  tokens_used : TokensUsed
deriving DecidableEq, Repr

/-- The fields of an `AIConfiguration` row read by the orchestration core
(`models/ai_config.py` lines 35-69).  `provider` is the enum's string value. -/
structure AIConfiguration where
  id : String
  user_id : String
  provider : String
  model_name : String
  api_endpoint : Option String
  api_key_encrypted : Option String
  system_prompt : Option String
  is_active : Bool
deriving DecidableEq, Repr

/-- The fields of an `AIJob` row touched by the orchestration core
(`models/ai_config.py` lines 76-105).  Timestamps are abstract instants. -/
structure AIJob where
  id : String
  configuration_id : String
  user_id : String
  job_type : AIAgentType
  status : AIJobStatus
  input_prompt : String
  input_metadata : Option (List (String × String))
  output_data : Option String
  suggested_blocks : List String
  tokens_used : TokensUsed
  started_at : Option Nat
  completed_at : Option Nat
  error_message : Option String
  created_at : Nat
  updated_at : Nat
deriving DecidableEq, Repr

/-- `job.input_metadata.get("block_id") if job.input_metadata else None`
(ai_processor.py line 319). -/
def AIJob.meta_block_id (job : AIJob) : Option String :=
  match job.input_metadata with
  | some m => (m.find? (fun p => p.1 == "block_id")).map (·.2)
  | none => none

/-- A concrete provider adapter instance as resolved by the factory:
`OpenAIProvider`, `AnthropicProvider` or `CustomProvider`
(ai_providers.py lines 50, 174, 267). -/
inductive AIProviderInstance
  | openaiProvider (api_key : Option String) (model_name : String) (base_url : Option String)
  | anthropicProvider (api_key : Option String) (model_name : String)
  | customProvider (api_endpoint : String) (api_key : Option String) (model_name : String)
deriving DecidableEq, Repr

/-- `create_ai_provider` (ai_providers.py lines 375-479): resolve a provider
identifier, API key, model name and optional custom endpoint to an adapter.
`Except.error` models the `ValueError`s the factory raises. -/
def create_ai_provider (provider_type : String) (api_key : Option String)
    (model_name : String) (api_endpoint : Option String) :
    Except String AIProviderInstance :=
  if provider_type == "openai" then
    .ok (.openaiProvider api_key model_name api_endpoint)
  else if provider_type == "anthropic" then
    .ok (.anthropicProvider api_key model_name)
  else if provider_type == "openrouter" then
    .ok (.openaiProvider api_key model_name (some "https://openrouter.ai/api/v1"))
  else if provider_type == "groq" then
    .ok (.openaiProvider api_key model_name (some "https://api.groq.com/openai/v1"))
  else if provider_type == "fireworks_ai" then
    .ok (.openaiProvider api_key model_name (some "https://api.fireworks.ai/inference/v1"))
  else if provider_type == "lepton_ai" then
    .ok (.openaiProvider api_key model_name
      (some (api_endpoint.getD "https://api.lepton.ai/api/v1")))
  else if provider_type == "together_ai" then
    .ok (.openaiProvider api_key model_name (some "https://api.together.xyz/v1"))
  else if provider_type == "huggingface" then
    .ok (.openaiProvider api_key model_name (some "https://api-inference.huggingface.co/v1"))
  else if provider_type == "replicate" then
    .ok (.openaiProvider api_key model_name
      (some (api_endpoint.getD "https://api.replicate.com/v1")))
  else if provider_type == "cohere" then
    .ok (.openaiProvider api_key model_name (some "https://api.cohere.ai/v1"))
  else if provider_type == "mistral_ai" then
    .ok (.openaiProvider api_key model_name (some "https://api.mistral.ai/v1"))
  else if provider_type == "ai21_labs" then
    .ok (.openaiProvider api_key model_name (some "https://api.ai21.com/studio/v1"))
  else if provider_type == "deepseek" then
    .ok (.openaiProvider api_key model_name (some "https://api.deepseek.com/v1"))
  else if provider_type == "aleph_alpha" then
    .ok (.openaiProvider api_key model_name (some "https://api.aleph-alpha.com/v1"))
  else if provider_type == "perplexity" then
    .ok (.openaiProvider api_key model_name (some "https://api.perplexity.ai"))
  else if provider_type == "azure_openai" then
    match api_endpoint with
    | none => .error
        "api_endpoint required for Azure OpenAI (format: https://{resource}.openai.azure.com)"
    | some ep => .ok (.openaiProvider api_key model_name (some ep))
  else if provider_type == "amazon_bedrock" then
    match api_endpoint with
    | none => .error "api_endpoint required for Amazon Bedrock"
    | some ep => .ok (.customProvider ep api_key model_name)
  else if provider_type == "cloudflare_ai" then
    .ok (.openaiProvider api_key model_name
      (some "https://api.cloudflare.com/client/v4/accounts/\x7baccount_id\x7d/ai/v1"))
  else if provider_type == "google_ai" then
    .ok (.openaiProvider api_key model_name (some "https://generativelanguage.googleapis.com/v1"))
  else if provider_type == "anyscale" then
    .ok (.openaiProvider api_key model_name
      (some (api_endpoint.getD "https://api.endpoints.anyscale.com/v1")))
  else if provider_type == "baseten" then
    match api_endpoint with
    | none => .error "api_endpoint required for Baseten"
    | some ep => .ok (.openaiProvider api_key model_name (some ep))
  else if provider_type == "modal" then
    match api_endpoint with
    | none => .error "api_endpoint required for Modal"
    | some ep => .ok (.customProvider ep api_key model_name)
  else if provider_type == "openai_compatible" then
    match api_endpoint with
    | none => .error "api_endpoint required for OpenAI Compatible provider"
    | some ep => .ok (.customProvider ep api_key model_name)
  else
    .error ("Unknown provider type: " ++ provider_type ++
      ". Supported providers: openai, anthropic, groq, together_ai, openrouter, and many more.")

/-- The provider identifiers handled by some branch of `create_ai_provider`'s
`elif` chain; every identifier outside this table reaches the final `else`. -/
def supported_provider_ids : List String :=
  ["openai", "anthropic", "openrouter", "groq", "fireworks_ai", "lepton_ai",
   "together_ai", "huggingface", "replicate", "cohere", "mistral_ai",
   "ai21_labs", "deepseek", "aleph_alpha", "perplexity", "azure_openai",
   "amazon_bedrock", "cloudflare_ai", "google_ai", "anyscale", "baseten",
   "modal", "openai_compatible"]

/-! ## API key selection per task template (ai_processor.py) -/

/-- Python `a or b` on an optional decrypted key: the left operand wins when it
is a non-empty string, otherwise the right operand is used. -/
def py_or_str (a : Option String) (b : String) : String :=
  match a with
  | some k => if k ≠ "" then k else b
  | none => b

/-- ai_processor.py lines 189-192 (`_process_content_creator`):
`api_key = decrypt_api_key(config.api_key_encrypted) if config.api_key_encrypted else None`
then `api_key or os.getenv(f"{provider.upper()}_API_KEY", "")`.
`decrypt_api_key` and `os.getenv` are passed in as functions. -/
def creator_api_key (decrypt_api_key : String → String) (getenv : String → String)
    (config : AIConfiguration) : String :=
  py_or_str
    (if py_truthy_opt config.api_key_encrypted then
      some (decrypt_api_key (config.api_key_encrypted.getD ""))
    else none)
    (getenv (py_upper config.provider ++ "_API_KEY"))

/-- ai_processor.py lines 332-335 (`_process_content_editor`): the same
decrypt-then-fallback key selection as the content-creator path. -/
def editor_api_key (decrypt_api_key : String → String) (getenv : String → String)
    (config : AIConfiguration) : String :=
  py_or_str
    (if py_truthy_opt config.api_key_encrypted then
      some (decrypt_api_key (config.api_key_encrypted.getD ""))
    else none)
    (getenv (py_upper config.provider ++ "_API_KEY"))

/-- ai_processor.py lines 273-278 (`_process_content_researcher`): the value
passed as `api_key` to `create_ai_provider` is `config.api_key_encrypted`
itself; no decryption function is in scope on this path. -/
def researcher_api_key (config : AIConfiguration) : Option String :=
  config.api_key_encrypted

/-- ai_processor.py lines 423-428 (`_process_course_designer`): as for the
researcher path, `config.api_key_encrypted` is passed through undecrypted. -/
def course_designer_api_key (config : AIConfiguration) : Option String :=
  config.api_key_encrypted

/-! ## The task templates and `process_job` -/

/-- The checks every template performs on the adapter result
(e.g. ai_processor.py lines 228-233):
`if result.get("error"): raise ...` and `if not result.get("content"): raise ...`.
On success it yields the non-empty content string. -/
def check_generation_result (r : GenerationResult) : Except String String :=
  if py_truthy_opt r.error then
    .error ("AI provider error: " ++ r.error.getD "")
  else if ¬ py_truthy_opt r.content then
    .error "AI provider returned no content"
  else
    .ok (r.content.getD "")

/-- The responses of the external collaborators during one background run:
the context-search results returned by the MCP client, the provider adapter's
generation result, and whether the target block of an edit job exists. -/
structure ExecEnv where
  existing_blocks : List String
  gen : GenerationResult
  block_found : Bool
deriving DecidableEq, Repr

/-- `_process_content_creator` (ai_processor.py lines 153-255): search context,
build the provider (decrypting the stored key), call it, check the result and
record output, token usage and the referenced block ids on the job.
`Except.error` carries the message of any exception raised. -/
def process_content_creator (job : AIJob) (config : AIConfiguration) (env : ExecEnv)
    (decrypt_api_key : String → String) (getenv : String → String) :
    Except String AIJob := do
  let _provider ← create_ai_provider config.provider
    (some (creator_api_key decrypt_api_key getenv config)) config.model_name config.api_endpoint
  let content ← check_generation_result env.gen
  pure { job with
    output_data := some content,
    tokens_used := env.gen.tokens_used,
    suggested_blocks := env.existing_blocks }

/-- `_process_content_researcher` (ai_processor.py lines 257-308): the stored
encrypted key is passed to the factory as-is; on success a summary and the
related block ids are recorded; no suggestion is produced. -/
def process_content_researcher (job : AIJob) (config : AIConfiguration) (env : ExecEnv) :
    Except String AIJob := do
  let _provider ← create_ai_provider config.provider
    (researcher_api_key config) config.model_name config.api_endpoint
  let content ← check_generation_result env.gen
  pure { job with
    output_data := some content,
    tokens_used := env.gen.tokens_used,
    suggested_blocks := env.existing_blocks }

/-- `_process_content_editor` (ai_processor.py lines 310-377): requires
`block_id` in the input metadata (`ValueError` when missing or empty, raised
at line 321 before the block lookup and provider construction), then the
target block must exist, then the provider is built with the decrypted key. -/
def process_content_editor (job : AIJob) (config : AIConfiguration) (env : ExecEnv)
    (decrypt_api_key : String → String) (getenv : String → String) :
    Except String AIJob := do
  if ¬ py_truthy_opt job.meta_block_id then
    throw "block_id required in input_metadata for content editor"
  if ¬ env.block_found then
    throw ("Block " ++ job.meta_block_id.getD "" ++ " not found")
  let _provider ← create_ai_provider config.provider
    (some (editor_api_key decrypt_api_key getenv config)) config.model_name config.api_endpoint
  let content ← check_generation_result env.gen
  pure { job with
    output_data := some content,
    tokens_used := env.gen.tokens_used }

/-- `_process_course_designer` (ai_processor.py lines 407-458): like the
researcher path, passing the encrypted key through undecrypted. -/
def process_course_designer (job : AIJob) (config : AIConfiguration) (env : ExecEnv) :
    Except String AIJob := do
  let _provider ← create_ai_provider config.provider
    (course_designer_api_key config) config.model_name config.api_endpoint
  let content ← check_generation_result env.gen
  pure { job with
    output_data := some content,
    tokens_used := env.gen.tokens_used,
    suggested_blocks := env.existing_blocks }

/-- The dispatch on `job.job_type` (ai_processor.py lines 102-110). -/
def dispatch_job (job : AIJob) (config : AIConfiguration) (env : ExecEnv)
    (decrypt_api_key : String → String) (getenv : String → String) :
    Except String AIJob :=
  match job.job_type with
  | .content_creator => process_content_creator job config env decrypt_api_key getenv
  | .content_researcher => process_content_researcher job config env
  | .content_editor => process_content_editor job config env decrypt_api_key getenv
  | .course_designer => process_course_designer job config env

/-- ai_processor.py lines 86-90: the start of the `try` block of `process_job`
sets the status to RUNNING and stamps `started_at`. -/
def process_job_start (job : AIJob) (t_start : Nat) : AIJob :=
  { job with status := .running, started_at := some t_start }

/-- ai_processor.py lines 112-114 and 149-151: the success epilogue of
`process_job` assigns `status = COMPLETED` and `completed_at`, then the
`finally` block stamps `updated_at`.  The current status of the job record is
not consulted: the assignment is unconditional. -/
def process_job_success_epilogue (job : AIJob) (t_done t_upd : Nat) : AIJob :=
  { job with status := .completed, completed_at := some t_done, updated_at := t_upd }

/-- ai_processor.py lines 129-131 and 149-151: the `except` branch of
`process_job` assigns `status = FAILED` and the error message (but no
`completed_at`), then the `finally` block stamps `updated_at`. -/
def process_job_failure_epilogue (job : AIJob) (e : String) (t_upd : Nat) : AIJob :=
  { job with status := .failed, error_message := some e, updated_at := t_upd }

/-- `AIJobProcessor.process_job` (ai_processor.py lines 57-151) for a job row
that exists (lines 66-73 return without any write otherwise).  `config` is the
configuration row loaded by id (`none` models the not-found case of lines
75-84, which marks the job FAILED and returns before the `try` block, hence
without `started_at`, `completed_at` or the `finally` stamp).  The second
component is the sequence of status values assigned to the record, in order. -/
def process_job (job : AIJob) (config : Option AIConfiguration) (env : ExecEnv)
    (decrypt_api_key : String → String) (getenv : String → String)
    (t_start t_done t_upd : Nat) : AIJob × List AIJobStatus :=
  match config with
  | none =>
    ({ job with status := .failed, error_message := some "Configuration not found" },
     [.failed])
  | some cfg =>
    match dispatch_job (process_job_start job t_start) cfg env decrypt_api_key getenv with
    | .ok j2 => (process_job_success_epilogue j2 t_done t_upd, [.running, .completed])
    | .error e =>
      (process_job_failure_epilogue (process_job_start job t_start) e t_upd,
       [.running, .failed])

/-! ## The HTTP submit and cancel operations (routers/ai_config.py) -/

/-- The error responses raised by the job router. -/
inductive HTTPError
  | not_found (detail : String)
  | bad_request (detail : String)
deriving DecidableEq, Repr

/-- The request body of `POST /v1/ai/jobs` (ai_config.py lines 73-77). -/
structure AIJobCreateReq where
  configuration_id : String
  job_type : AIAgentType
  input_prompt : String
  input_metadata : Option (List (String × String))
deriving DecidableEq, Repr

/-- `create_ai_job` (ai_config.py lines 333-388): look the configuration up by
id AND owner (lines 342-346 filter on `id` and `user_id` only), return 404 when
absent, otherwise persist exactly one new PENDING job and return it.  `configs`
is the configuration table, `current_user` the caller's id, `new_id` the
generated uuid and `t` the creation instant. -/
def create_ai_job (configs : List AIConfiguration) (current_user : String)
    (req : AIJobCreateReq) (new_id : String) (t : Nat) : Except HTTPError AIJob :=
  match configs.find? (fun c => c.id == req.configuration_id && c.user_id == current_user) with
  | none => .error (.not_found "AI configuration not found")
  | some config =>
    .ok {
      id := new_id,
      configuration_id := config.id,
      user_id := current_user,
      job_type := req.job_type,
      status := .pending,
      input_prompt := req.input_prompt,
      input_metadata := some (req.input_metadata.getD []),
      output_data := none,
      suggested_blocks := [],
      tokens_used := ⟨0, 0, 0⟩,
      started_at := none,
      completed_at := none,
      error_message := none,
      created_at := t,
      updated_at := t }

/-- Render a status the way the f-string of ai_config.py line 482 does. -/
def AIJobStatus.pyStr : AIJobStatus → String
  | .pending => "AIJobStatus.PENDING"
  | .running => "AIJobStatus.RUNNING"
  | .completed => "AIJobStatus.COMPLETED"
  | .failed => "AIJobStatus.FAILED"
  | .cancelled => "AIJobStatus.CANCELLED"

/-- `cancel_ai_job` (ai_config.py lines 459-505) applied to a job row owned by
the caller: 400 when the job is already terminal, otherwise the row is marked
CANCELLED with the fixed error message and a completion timestamp. -/
def cancel_ai_job (job : AIJob) (t : Nat) : Except HTTPError AIJob :=
  if job.status.isTerminal then
    .error (.bad_request ("Cannot cancel job in " ++ job.status.pyStr ++ " status"))
  else
    .ok { job with
      status := .cancelled,
      error_message := some "Cancelled by user",
      completed_at := some t,
      updated_at := t }

/-! ## Confidence scoring (ai_processor.py lines 379-405 and 502-530) -/

/-- `_calculate_confidence_score` (ai_processor.py lines 502-530), with the
real-valued score modelled in `ℚ`: base 0.7, +0.05 for more than three lines,
+0.05 for a fenced code block, +0.05 for non-empty context, +0.05 for at least
one URL, -0.15 for content shorter than 100 characters, clamped into
[0.3, 0.95]. -/
def calculate_confidence_score (content : String) (existing_blocks : List String) : ℚ :=
  let score : ℚ := 7/10
  let score := if (content.splitOn "\n").length > 3 then score + 5/100 else score
  let score := if str_contains content "```" then score + 5/100 else score
  let score := if existing_blocks.length > 0 then score + 5/100 else score
  let score := if has_url content then score + 5/100 else score
  let score := if content.length < 100 then score - 15/100 else score
  min (95/100) (max (3/10) score)

/-- `_create_edit_suggestion` (ai_processor.py line 397): edit suggestions get
the fixed confidence score 0.85. -/
def edit_suggestion_confidence_score : ℚ := 85/100

/-! ## Provider adapter `generate` methods (ai_providers.py) -/

/-- One element of `response.choices` of an OpenAI-shaped chat completion. -/
structure ChatChoice where
  content : Option String
  finish_reason : String
deriving DecidableEq, Repr

/-- An OpenAI-shaped chat completion response: a list of choices and the
optional `usage` object. -/
structure ChatResponse where
  choices : List ChatChoice
  usage : Option TokensUsed
deriving DecidableEq, Repr

/-- An Anthropic messages response: content blocks, stop reason and the
input/output token counts of its `usage` object. -/
structure AnthropicResponse where
  content : List String
  stop_reason : String
  input_tokens : Nat
  output_tokens : Nat
deriving DecidableEq, Repr

/-- What the vendor SDK call inside the adapter's `try` block does: either it
raises (any transport or vendor exception, carried as its message) or it
returns a response. -/
inductive VendorOutcome (ρ : Type)
  | raises (msg : String)
  | responds (resp : ρ)
deriving DecidableEq, Repr

/-- The error-message rewriting of the `except` handler shared by
`OpenAIProvider.generate` and `CustomProvider.generate`
(ai_providers.py lines 126-134 and 348-356): authentication failures, unknown
models and rate limits are normalized to fixed human-readable messages. -/
def normalize_openai_error (error_msg : String) : String :=
  if str_contains error_msg "401" || str_contains (py_lower error_msg) "authentication" then
    "Authentication failed. Please check your API key."
  else if str_contains error_msg "404" then
    "Model not found. Please check the model name."
  else if str_contains (py_lower error_msg) "rate" && str_contains (py_lower error_msg) "limit" then
    "Rate limit exceeded. Please try again later."
  else
    error_msg

/-- `OpenAIProvider.generate` (ai_providers.py lines 65-140): an empty
`choices` list yields the invalid-response error variant; a response yields the
content result; an exception is caught and normalized into the error variant —
the method never re-raises. -/
def openai_generate (outcome : VendorOutcome ChatResponse) : GenerationResult :=
  match outcome with
  | .responds r =>
    match r.choices with
    | [] =>
      { error := some "Invalid response from AI provider: no choices in response",
        content := none, finish_reason := none, tokens_used := ⟨0, 0, 0⟩ }
    | choice :: _ =>
      { error := none,
        content := choice.content,
        finish_reason := some choice.finish_reason,
        tokens_used := (r.usage.getD ⟨0, 0, 0⟩) }
  | .raises msg =>
    { error := some (normalize_openai_error msg),
      content := none, finish_reason := none, tokens_used := ⟨0, 0, 0⟩ }

/-- `CustomProvider.generate` (ai_providers.py lines 287-362) is line-for-line
the same handler as `OpenAIProvider.generate`, including the normalization. -/
def custom_generate (outcome : VendorOutcome ChatResponse) : GenerationResult :=
  openai_generate outcome

/-- `AnthropicProvider.generate` (ai_providers.py lines 184-237): a response
yields the first content block (or `None` when the block list is empty) with
Anthropic's usage accounting; an exception is caught and returned as the error
variant carrying `str(e)` unchanged — no message rewriting occurs. -/
def anthropic_generate (outcome : VendorOutcome AnthropicResponse) : GenerationResult :=
  match outcome with
  | .responds r =>
    { error := none,
      content := r.content.head?,
      finish_reason := some r.stop_reason,
      tokens_used := ⟨r.input_tokens, r.output_tokens, r.input_tokens + r.output_tokens⟩ }
  | .raises msg =>
    { error := some msg,
      content := none, finish_reason := none, tokens_used := ⟨0, 0, 0⟩ }

/-! ## The Secret Vault wrapper (utils/encryption.py)

`EncryptionService` wraps the external `cryptography.fernet.Fernet` cipher and
the standard library's url-safe base64 codec.  The Fernet cipher is external to
the repository and is modelled as an abstract byte-level authenticated cipher
(`FernetCipher`); its documented round-trip contract appears as a hypothesis of
the theorems.  The base64 layer is modelled concretely below.  Bytes are `Nat`
values, well-formed when `< 256`; text decoding is modelled on the ASCII
fragment, where UTF-8 encode/decode agree with the code-point maps. -/

/-- The url-safe base64 alphabet. -/
def b64chars : List Char :=
  "ABCDEFGHIJKLMNOPQRSTUVWXYZabcdefghijklmnopqrstuvwxyz0123456789-_".data

/-- The character encoding a 6-bit group. -/
def b64char (n : Nat) : Char :=
  b64chars.getD n 'A'

/-- The 6-bit value of an alphabet character, `none` for anything else
(including the padding character). -/
def b64val (c : Char) : Option Nat :=
  b64chars.indexOf? c

/-- `base64.urlsafe_b64encode` on a byte list: 3 bytes become 4 characters,
a final group of 1 or 2 bytes is padded with `=`. -/
def b64encodeList : List Nat → List Char
  | [] => []
  | [a] => [b64char (a / 4), b64char (a % 4 * 16), '=', '=']
  | [a, b] => [b64char (a / 4), b64char (a % 4 * 16 + b / 16), b64char (b % 16 * 4), '=']
  | a :: b :: c :: rest =>
    b64char (a / 4) :: b64char (a % 4 * 16 + b / 16) ::
    b64char (b % 16 * 4 + c / 64) :: b64char (c % 64) :: b64encodeList rest

/-- `base64.urlsafe_b64decode` on a character list, `none` modelling the
`binascii.Error` raised on malformed input: the length must be a multiple of
four, all characters must be alphabet characters and padding may only close
the final quad. -/
def b64decodeList : List Char → Option (List Nat)
  | c1 :: c2 :: c3 :: c4 :: rest =>
    (b64val c1).bind fun v1 =>
    (b64val c2).bind fun v2 =>
    if c3 = '=' then
      if c4 = '=' ∧ rest = [] then some [v1 * 4 + v2 / 16] else none
    else
      (b64val c3).bind fun v3 =>
      if c4 = '=' then
        if rest = [] then some [v1 * 4 + v2 / 16, v2 % 16 * 16 + v3 / 4] else none
      else
        (b64val c4).bind fun v4 =>
        (b64decodeList rest).bind fun tail =>
        some ((v1 * 4 + v2 / 16) :: (v2 % 16 * 16 + v3 / 4) :: (v3 % 4 * 64 + v4) :: tail)
  | [] => some []
  | _ => none

/-- `plaintext.encode()` on the ASCII fragment: the byte of each character is
its code point. -/
def str_to_bytes (s : String) : List Nat :=
  s.data.map Char.toNat

/-- `bytes.decode()` modelled on the ASCII fragment: byte values below 128
decode to the corresponding characters, anything else fails (the
`UnicodeDecodeError` is caught by `decrypt`'s handler). -/
def bytes_to_str (bs : List Nat) : Option String :=
  if bs.all (· < 128) then some (String.mk (bs.map Char.ofNat)) else none

/-- The external authenticated symmetric cipher held in `self.cipher`
(encryption.py line 32): `enc` is `Fernet.encrypt`, `dec` is `Fernet.decrypt`
with `none` modelling the `InvalidToken` exception on tampered input.  Its
round-trip contract is a documented property of the external library and is
taken as a hypothesis where needed. -/
structure FernetCipher where
  enc : List Nat → List Nat
  dec : List Nat → Option (List Nat)

/-- `EncryptionService.encrypt` (encryption.py lines 34-48): empty plaintext is
returned unchanged; otherwise the plaintext bytes are encrypted and the result
is url-safe base64 encoded. -/
def EncryptionService.encrypt (cipher : FernetCipher) (plaintext : String) : String :=
  if plaintext = "" then ""
  else String.mk (b64encodeList (cipher.enc (str_to_bytes plaintext)))

/-- `EncryptionService.decrypt` (encryption.py lines 50-69): empty input is
returned unchanged; otherwise base64-decode, decrypt and text-decode, with any
failure of the three stages caught and mapped to `""` — the method never
raises. -/
def EncryptionService.decrypt (cipher : FernetCipher) (encrypted_text : String) : String :=
  if encrypted_text = "" then ""
  else
    (((b64decodeList encrypted_text.data).bind fun bs =>
      (cipher.dec bs).bind fun pt =>
      bytes_to_str pt).getD "")

/-! ## The WebSocket connection registry (websocket/connection_manager.py)

Connections are identified by `Nat` ids.  `active_connections` is the
`user_id -> set of websockets` map (sets as duplicate-free lists),
`connection_users` the reverse `websocket -> user_id` map, both as association
lists.  `send_text` succeeding or failing on a given connection is modelled by
the oracle `ok`. -/

structure ConnectionManager where
  active_connections : List (String × List Nat)
  connection_users : List (Nat × String)
deriving DecidableEq, Repr

/-- The connections currently registered for a user: the entry of
`active_connections`, the empty list when the user has no entry. -/
def ConnectionManager.userConns (m : ConnectionManager) (user_id : String) : List Nat :=
  ((m.active_connections.find? (fun p => p.1 == user_id)).map (·.2)).getD []

/-- `connection_users` lookup: the user a websocket is registered to. -/
def ConnectionManager.ownerOf (m : ConnectionManager) (ws : Nat) : Option String :=
  (m.connection_users.find? (fun p => p.1 == ws)).map (·.2)

/-- `ConnectionManager.disconnect` (connection_manager.py lines 42-61): when
the websocket is known, discard it from its user's set (deleting the entry if
it became empty) and drop it from `connection_users`; unknown websockets are
ignored. -/
def ConnectionManager.disconnect (m : ConnectionManager) (ws : Nat) : ConnectionManager :=
  match m.ownerOf ws with
  | none => m
  | some user_id =>
    { active_connections :=
        (m.active_connections.map
          (fun p => if p.1 == user_id then (p.1, p.2.filter (fun c => c ≠ ws)) else p)).filter
          (fun p => !(p.1 == user_id && p.2.isEmpty)),
      connection_users := m.connection_users.filter (fun p => p.1 ≠ ws) }

/-- `ConnectionManager.send_personal_message` (connection_manager.py lines
63-84): nothing happens when the user has no registered connections; otherwise
a copy of the user's connection set is iterated, each successful `send_text`
delivers the message, and each failure is caught and answered by
`disconnect`ing just that connection — the loop continues and the method never
raises.  Returns the updated registry and the connections the message was
delivered to, in iteration order. -/
def ConnectionManager.send_personal_message (m : ConnectionManager) (ok : Nat → Bool)
    (user_id : String) : ConnectionManager × List Nat :=
  match m.active_connections.find? (fun p => p.1 == user_id) with
  | none => (m, [])
  | some entry =>
    (entry.2.foldl
      (fun st c =>
        if ok c then (st.1, st.2 ++ [c])
        else (st.1.disconnect c, st.2))
      (m, []))

/-- Well-formedness of the registry as maintained by `connect`/`disconnect`:
user keys are unique, each connection set is duplicate-free, and every
registered connection is mapped back to its user by `connection_users`. -/
def ConnectionManager.WellFormed (m : ConnectionManager) : Prop :=
  (m.active_connections.map (·.1)).Nodup ∧
  ∀ p ∈ m.active_connections, p.2.Nodup ∧ ∀ c ∈ p.2, m.ownerOf c = some p.1

instance (m : ConnectionManager) : Decidable m.WellFormed := by
  unfold ConnectionManager.WellFormed
  infer_instance

/-! ## Concrete scenario inputs used by the closed theorems -/

/-- A freshly submitted PENDING content-creator job. -/
def sampleJob : AIJob :=
  { id := "job-1", configuration_id := "cfg-1", user_id := "user-1",
    job_type := .content_creator, status := .pending,
    input_prompt := "Explain binary search",
    input_metadata := some [],
    output_data := none, suggested_blocks := [], tokens_used := ⟨0, 0, 0⟩,
    started_at := none, completed_at := none, error_message := none,
    created_at := 0, updated_at := 0 }

/-- An active configuration owned by `user-1`. -/
def sampleConfig : AIConfiguration :=
  { id := "cfg-1", user_id := "user-1", provider := "openai", model_name := "gpt-4",
    api_endpoint := none, api_key_encrypted := some "enc-key", system_prompt := none,
    is_active := true }

/-- An environment where the provider answers successfully. -/
def sampleEnvOk : ExecEnv :=
  ⟨["blk-1", "blk-2"],
   ⟨none, some "# Binary Search\n...", some "stop", ⟨50, 120, 170⟩⟩, true⟩

/-- An environment where the provider returns its error variant. -/
def sampleEnvErr : ExecEnv :=
  ⟨[], ⟨some "Authentication failed. Please check your API key.", none, none, ⟨0, 0, 0⟩⟩, true⟩

/-- An inactive (soft-deleted) configuration owned by `user-1`. -/
def sampleInactiveConfig : AIConfiguration :=
  { sampleConfig with is_active := false }

/-- A content-editor job whose metadata has no block id. -/
def sampleEditorJob : AIJob :=
  { sampleJob with job_type := .content_editor }

/-- A toy cipher satisfying the Fernet contract, for the witness. -/
def toyCipher : FernetCipher :=
  { enc := fun bs => 17 :: bs,
    dec := fun l => match l with | 17 :: bs => some bs | _ => none }

/-- The registry of the two-users scenario: `alice` with two tabs, `bob` with one. -/
def sampleRegistry : ConnectionManager :=
  { active_connections := [("alice", [1, 2]), ("bob", [3])],
    connection_users := [(1, "alice"), (2, "alice"), (3, "bob")] }

/-! ## Supporting lemmas -/

/-- The clamp `min(0.95, max(0.3, s))` keeps any score inside [0.3, 0.95]. -/
theorem clamp_bounds (q : ℚ) :
    3/10 ≤ min (95/100) (max (3/10) q) ∧ min (95/100) (max (3/10) q) ≤ 19/20 :=
  ⟨le_min (by norm_num) (le_max_left _ _), (min_le_left _ _).trans (by norm_num)⟩

theorem b64val_b64char : ∀ n < 64, b64val (b64char n) = some n := by decide

theorem b64char_ne_pad : ∀ n < 64, b64char n ≠ '=' := by decide

theorem b64_roundtrip : ∀ bs : List Nat, (∀ x ∈ bs, x < 256) →
    b64decodeList (b64encodeList bs) = some bs := by
  intro bs
  induction bs using b64encodeList.induct with
  | case1 => intro _; rfl
  | case2 a =>
    intro h
    have ha : a < 256 := h a (by simp)
    simp only [b64encodeList, b64decodeList]
    rw [b64val_b64char _ (by omega)]
    simp only [Option.some_bind]
    rw [b64val_b64char _ (by omega)]
    simp only [Option.some_bind]
    simp
    omega
  | case3 a b =>
    intro h
    have ha : a < 256 := h a (by simp)
    have hb : b < 256 := h b (by simp)
    simp only [b64encodeList, b64decodeList]
    rw [b64val_b64char _ (by omega)]
    simp only [Option.some_bind]
    rw [b64val_b64char _ (by omega)]
    simp only [Option.some_bind]
    rw [if_neg (b64char_ne_pad (b % 16 * 4) (by omega))]
    rw [b64val_b64char _ (by omega)]
    simp only [Option.some_bind]
    simp
    omega
  | case4 a b c rest ih =>
    intro h
    have ha : a < 256 := h a (by simp)
    have hb : b < 256 := h b (by simp)
    have hc : c < 256 := h c (by simp)
    have hrest : ∀ x ∈ rest, x < 256 := fun x hx => h x (by simp [hx])
    simp only [b64encodeList, b64decodeList]
    rw [b64val_b64char _ (by omega)]
    simp only [Option.some_bind]
    rw [b64val_b64char _ (by omega)]
    simp only [Option.some_bind]
    rw [if_neg (b64char_ne_pad (b % 16 * 4 + c / 64) (by omega))]
    rw [b64val_b64char _ (by omega)]
    simp only [Option.some_bind]
    rw [if_neg (b64char_ne_pad (c % 64) (by omega))]
    rw [b64val_b64char _ (by omega)]
    simp only [Option.some_bind]
    rw [ih hrest]
    simp only [Option.some_bind]
    simp
    omega

theorem b64encodeList_ne_nil : ∀ {bs : List Nat}, bs ≠ [] → b64encodeList bs ≠ []
  | [], h => absurd rfl h
  | [_], _ => by simp [b64encodeList]
  | [_, _], _ => by simp [b64encodeList]
  | _ :: _ :: _ :: _, _ => by simp [b64encodeList]

theorem map_ofNat_toNat : ∀ l : List Char, List.map (Char.ofNat ∘ Char.toNat) l = l := by
  intro l
  induction l with
  | nil => rfl
  | cons c cs ih => simp [ih, Char.ofNat_toNat]

theorem bytes_to_str_str_to_bytes (s : String) (h : ∀ c ∈ s.data, c.toNat < 128) :
    bytes_to_str (str_to_bytes s) = some s := by
  unfold bytes_to_str str_to_bytes
  rw [if_pos]
  · cases s with
    | mk l =>
      simp only [Option.some.injEq]
      congr 1
      rw [List.map_map, map_ofNat_toNat]
  · simp only [List.all_eq_true, List.mem_map]
    rintro x ⟨c, hc, rfl⟩
    simpa using h c hc

theorem find?_filter_key_ne (l : List (Nat × String)) (ws w : Nat) (hw : w ≠ ws) :
    (l.filter (fun p => p.1 ≠ ws)).find? (fun p => p.1 == w) =
      l.find? (fun p => p.1 == w) := by
  induction l with
  | nil => rfl
  | cons q l ih =>
    by_cases hq : q.1 = ws
    · have hqw : (q.1 == w) = false := by simp [hq]; omega
      rw [List.filter_cons_of_neg (by simp [hq])]
      rw [ih, List.find?_cons, hqw]
    · rw [List.filter_cons_of_pos (by simp [hq])]
      rcases hqw : (q.1 == w) with _ | _ <;>
        simp only [List.find?_cons, hqw, ih]

theorem ownerOf_disconnect_ne (m : ConnectionManager) (ws w : Nat) (hw : w ≠ ws) :
    (m.disconnect ws).ownerOf w = m.ownerOf w := by
  unfold ConnectionManager.disconnect
  cases hO : m.ownerOf ws with
  | none => rfl
  | some uid =>
    show ((m.connection_users.filter (fun p => p.1 ≠ ws)).find? (fun p => p.1 == w)).map (·.2) =
      m.ownerOf w
    rw [find?_filter_key_ne m.connection_users ws w hw]
    rfl

theorem find?_mapfilter_key_ne (l : List (String × List Nat)) (u v : String)
    (hv : v ≠ u) (ws : Nat) :
    (((l.map (fun p => if p.1 == u then (p.1, p.2.filter (fun c => c ≠ ws)) else p)).filter
        (fun p => !(p.1 == u && p.2.isEmpty))).find? (fun p => p.1 == v)) =
      l.find? (fun p => p.1 == v) := by
  induction l with
  | nil => rfl
  | cons q l ih =>
    by_cases hq : q.1 = u
    · have hqv : (q.1 == v) = false := by simp [hq]; exact fun h => hv h.symm
      rw [List.map_cons, if_pos (by simp [hq])]
      by_cases hemp : q.2.filter (fun c => c ≠ ws) = []
      · rw [List.filter_cons_of_neg (by rw [hemp]; simp [hq])]
        rw [ih, List.find?_cons, hqv]
      · have hne : (q.2.filter (fun c => c ≠ ws)).isEmpty = false := by
          cases hf : q.2.filter (fun c => c ≠ ws) with
          | nil => exact absurd hf hemp
          | cons a as => rfl
        rw [List.filter_cons_of_pos (by rw [hne]; simp)]
        rw [List.find?_cons]
        simp only [hqv]
        rw [ih, List.find?_cons, hqv]
    · rw [List.map_cons, if_neg (by simp [hq])]
      rw [List.filter_cons_of_pos (by simp [hq])]
      rcases hqv : (q.1 == v) with _ | _ <;>
        simp only [List.find?_cons, hqv, ih]

theorem userConns_disconnect_ne (m : ConnectionManager) (ws : Nat) (u v : String)
    (hO : m.ownerOf ws = some u) (hv : v ≠ u) :
    (m.disconnect ws).userConns v = m.userConns v := by
  unfold ConnectionManager.disconnect
  rw [hO]
  show ((((m.active_connections.map
      (fun p => if p.1 == u then (p.1, p.2.filter (fun c => c ≠ ws)) else p)).filter
        (fun p => !(p.1 == u && p.2.isEmpty))).find? (fun p => p.1 == v)).map (·.2)).getD [] =
    m.userConns v
  rw [find?_mapfilter_key_ne m.active_connections u v hv ws]
  rfl

theorem find?_mapfilter_none (l : List (String × List Nat)) (u : String) (ws : Nat)
    (hu : ∀ p ∈ l, p.1 ≠ u) :
    ((l.map (fun p => if p.1 == u then (p.1, p.2.filter (fun c => c ≠ ws)) else p)).filter
        (fun p => !(p.1 == u && p.2.isEmpty))).find? (fun p => p.1 == u) = none := by
  rw [List.find?_eq_none]
  intro x hx
  have hx1 : x ∈ l.map (fun p => if p.1 == u then (p.1, p.2.filter (fun c => c ≠ ws)) else p) :=
    List.mem_of_mem_filter hx
  obtain ⟨p, hp, rfl⟩ := List.mem_map.mp hx1
  have hpu : ¬p.1 = u := hu p hp
  simp [hpu]

theorem find?_mapfilter_key_self (l : List (String × List Nat)) (u : String) (ws : Nat)
    (hkeys : (l.map (·.1)).Nodup) :
    ((((l.map (fun p => if p.1 == u then (p.1, p.2.filter (fun c => c ≠ ws)) else p)).filter
        (fun p => !(p.1 == u && p.2.isEmpty))).find? (fun p => p.1 == u)).map (·.2)).getD [] =
      (((l.find? (fun p => p.1 == u)).map (·.2)).getD []).filter (fun c => c ≠ ws) := by
  induction l with
  | nil => rfl
  | cons q l ih =>
    rw [List.map_cons, List.nodup_cons] at hkeys
    obtain ⟨hk1, hk2⟩ := hkeys
    by_cases hq : q.1 = u
    · rw [List.map_cons, if_pos (by simp [hq])]
      have hnone : ((l.map (fun p => if p.1 == u then (p.1, p.2.filter (fun c => c ≠ ws)) else p)).filter
          (fun p => !(p.1 == u && p.2.isEmpty))).find? (fun p => p.1 == u) = none := by
        refine find?_mapfilter_none l u ws (fun p hp hpu => hk1 ?_)
        rw [← hq] at hpu
        rw [← hpu]
        exact List.mem_map_of_mem (·.1) hp
      by_cases hemp : q.2.filter (fun c => c ≠ ws) = []
      · rw [List.filter_cons_of_neg (by rw [hemp]; simp [hq])]
        rw [hnone]
        rw [List.find?_cons_of_pos _ (by simp [hq])]
        exact hemp.symm
      · have hne : (q.2.filter (fun c => c ≠ ws)).isEmpty = false := by
          cases hf : q.2.filter (fun c => c ≠ ws) with
          | nil => exact absurd hf hemp
          | cons a as => rfl
        rw [List.filter_cons_of_pos (by rw [hne]; simp)]
        rw [List.find?_cons_of_pos _ (by simp [hq]), List.find?_cons_of_pos _ (by simp [hq])]
        rfl
    · have hqu : (q.1 == u) = false := by simp [hq]
      rw [List.map_cons, if_neg (by simp [hq])]
      rw [List.filter_cons_of_pos (by simp [hq])]
      rw [List.find?_cons, hqu, List.find?_cons, hqu]
      exact ih hk2

theorem userConns_disconnect_self (m : ConnectionManager) (ws : Nat) (u : String)
    (hO : m.ownerOf ws = some u) (hkeys : (m.active_connections.map (·.1)).Nodup) :
    (m.disconnect ws).userConns u = (m.userConns u).filter (fun c => c ≠ ws) := by
  unfold ConnectionManager.disconnect
  rw [hO]
  exact find?_mapfilter_key_self m.active_connections u ws hkeys

theorem keys_disconnect_sublist (m : ConnectionManager) (ws : Nat) :
    ((m.disconnect ws).active_connections.map (·.1)).Sublist
      (m.active_connections.map (·.1)) := by
  unfold ConnectionManager.disconnect
  cases hO : m.ownerOf ws with
  | none => exact List.Sublist.refl _
  | some u =>
    have hmap : (m.active_connections.map
        (fun p => if p.1 == u then (p.1, p.2.filter (fun c => c ≠ ws)) else p)).map (·.1) =
        m.active_connections.map (·.1) := by
      rw [List.map_map]
      refine List.map_congr_left (fun p _ => ?_)
      by_cases hq : p.1 = u <;> simp [hq]
    have hsub : (((m.active_connections.map
        (fun p => if p.1 == u then (p.1, p.2.filter (fun c => c ≠ ws)) else p)).filter
          (fun p => !(p.1 == u && p.2.isEmpty))).map (·.1)).Sublist
        ((m.active_connections.map
          (fun p => if p.1 == u then (p.1, p.2.filter (fun c => c ≠ ws)) else p)).map (·.1)) :=
      (List.filter_sublist _).map _
    rw [hmap] at hsub
    exact hsub

theorem keys_nodup_disconnect (m : ConnectionManager) (ws : Nat)
    (h : (m.active_connections.map (·.1)).Nodup) :
    ((m.disconnect ws).active_connections.map (·.1)).Nodup :=
  List.Nodup.sublist (keys_disconnect_sublist m ws) h

theorem send_loop (ok : Nat → Bool) (uid : String) :
    ∀ (todo : List Nat) (st : ConnectionManager) (acc : List Nat),
      todo.Nodup →
      (st.active_connections.map (·.1)).Nodup →
      (∀ c ∈ todo, st.ownerOf c = some uid) →
      (todo.foldl
          (fun s c => if ok c then (s.1, s.2 ++ [c]) else (s.1.disconnect c, s.2))
          (st, acc)).2 = acc ++ todo.filter ok ∧
      (∀ v, v ≠ uid →
        (todo.foldl
            (fun s c => if ok c then (s.1, s.2 ++ [c]) else (s.1.disconnect c, s.2))
            (st, acc)).1.userConns v = st.userConns v) ∧
      (todo.foldl
          (fun s c => if ok c then (s.1, s.2 ++ [c]) else (s.1.disconnect c, s.2))
          (st, acc)).1.userConns uid =
        (st.userConns uid).filter (fun c => !todo.contains c || ok c) := by
  intro todo
  induction todo with
  | nil =>
    intro st acc _ _ _
    refine ⟨by simp, fun v _ => rfl, ?_⟩
    have : (st.userConns uid).filter (fun c => !([] : List Nat).contains c || ok c) =
        (st.userConns uid).filter (fun _ => true) := List.filter_congr (fun x _ => rfl)
    rw [List.foldl_nil, this, List.filter_true]
  | cons c todo ih =>
    intro st acc hnd hkeys hown
    obtain ⟨hc_notin, hnd_tail⟩ := List.nodup_cons.mp hnd
    have hc_owner : st.ownerOf c = some uid := hown c (by simp)
    rw [List.foldl_cons]
    rcases hok : ok c with _ | _
    · -- send_text failed on c: the connection is disconnected and not delivered
      have hkeys2 := keys_nodup_disconnect st c hkeys
      have hown2 : ∀ x ∈ todo, (st.disconnect c).ownerOf x = some uid := by
        intro x hx
        have hxc : x ≠ c := fun h => hc_notin (h ▸ hx)
        rw [ownerOf_disconnect_ne st c x hxc]
        exact hown x (by simp [hx])
      obtain ⟨h1, h2, h3⟩ := ih (st.disconnect c) acc hnd_tail hkeys2 hown2
      simp only [hok, Bool.false_eq_true, if_false]
      refine ⟨?_, ?_, ?_⟩
      · rw [h1, List.filter_cons_of_neg (by simp [hok])]
      · intro v hv
        rw [h2 v hv, userConns_disconnect_ne st c uid v hc_owner hv]
      · rw [h3, userConns_disconnect_self st c uid hc_owner hkeys, List.filter_filter]
        refine List.filter_congr (fun x _ => ?_)
        by_cases hxc : x = c
        · subst hxc
          simp [hok]
        · simp [List.contains_cons, hxc]
    · -- send_text succeeded on c: delivered, registry untouched
      have hown2 : ∀ x ∈ todo, st.ownerOf x = some uid := fun x hx => hown x (by simp [hx])
      obtain ⟨h1, h2, h3⟩ := ih st (acc ++ [c]) hnd_tail hkeys hown2
      simp only [hok, if_true]
      refine ⟨?_, ?_, ?_⟩
      · rw [h1, List.filter_cons_of_pos hok, List.append_assoc]
        rfl
      · exact h2
      · rw [h3]
        refine List.filter_congr (fun x _ => ?_)
        by_cases hxc : x = c
        · subst hxc
          simp [hok]
        · simp [List.contains_cons, hxc]

/-- When the target block identifier is missing or empty, the content-editor
template raises the ValueError of ai_processor.py line 321. -/
theorem process_content_editor_missing_block_id (job : AIJob) (config : AIConfiguration)
    (env : ExecEnv) (dk ge : String → String)
    (hmeta : py_truthy_opt job.meta_block_id = false) :
    process_content_editor job config env dk ge =
      .error "block_id required in input_metadata for content editor" := by
  unfold process_content_editor
  simp only [hmeta]
  rfl

/-! ## The claims -/

/-- Claim C1: the spec requires that a stale provider result arriving after
cancellation must not move the status away from CANCELLED, and the claim says
`process_job` checks the current status before applying any late result.  The
code contains no such check: the success epilogue of `process_job`
(ai_processor.py lines 112-114) assigns COMPLETED unconditionally.  Exhibit of
the code bug: a PENDING job is set RUNNING by the background task, the cancel
endpoint marks it CANCELLED, and the late success epilogue then overwrites the
record with COMPLETED. -/
theorem C1_late_result_overwrites_cancelled :
    (cancel_ai_job (process_job_start sampleJob 1) 2).map (fun jc => jc.status) =
      .ok .cancelled ∧
    (cancel_ai_job (process_job_start sampleJob 1) 2).map
      (fun jc => (process_job_success_epilogue jc 3 4).status) = .ok .completed ∧
    AIJobStatus.completed ≠ AIJobStatus.cancelled :=
  ⟨rfl, rfl, by decide⟩

/-- Claim C2 counterexample: a run whose provider returns the error variant
ends in the terminal status FAILED while `completed_at` is still unset,
refuting "`completed_at` is set if and only if the status is terminal". -/
theorem C2_failed_job_without_completed_at :
    (process_job sampleJob (some sampleConfig) sampleEnvErr id id 1 2 3).1.status = .failed ∧
    (process_job sampleJob (some sampleConfig) sampleEnvErr id id 1 2 3).1.completed_at = none ∧
    AIJobStatus.failed.isTerminal = true :=
  ⟨rfl, rfl, rfl⟩

/-- Claim C2 (amended): `completed_at` is assigned at the transition into
COMPLETED (the success epilogue of `process_job`) and at cancellation, but not
at the transitions into FAILED.  Hence for a job with `completed_at` unset,
after a `process_job` run `completed_at` is set iff the final status is
COMPLETED; a cancel succeeds exactly on non-terminal jobs — on a terminal job
it returns the 400 error and leaves the record unchanged, so it cannot stamp
`completed_at` a second time — and a successful cancel sets status CANCELLED
together with `completed_at`. -/
theorem C2_completed_at_at_completed_or_cancelled (job : AIJob)
    (config : Option AIConfiguration) (env : ExecEnv) (dk ge : String → String)
    (t1 t2 t3 t : Nat) (hfresh : job.completed_at = none) :
    (((process_job job config env dk ge t1 t2 t3).1.completed_at).isSome ↔
      (process_job job config env dk ge t1 t2 t3).1.status = .completed) ∧
    (∀ jc, cancel_ai_job job t = .ok jc →
      jc.status = .cancelled ∧ jc.completed_at = some t) ∧
    (job.status.isTerminal = false → ∃ jc, cancel_ai_job job t = .ok jc) ∧
    (job.status.isTerminal = true →
      cancel_ai_job job t =
        .error (.bad_request ("Cannot cancel job in " ++ job.status.pyStr ++ " status"))) := by
  refine ⟨?_, ?_, ?_, ?_⟩
  · match config with
    | none => simp [process_job, hfresh]
    | some cfg =>
      simp only [process_job]
      cases hD : dispatch_job (process_job_start job t1) cfg env dk ge with
      | ok j2 => simp [process_job_success_epilogue]
      | error e => simp [process_job_failure_epilogue, process_job_start, hfresh]
  · intro jc h
    unfold cancel_ai_job at h
    split at h
    · exact absurd h (by simp)
    · cases h
      exact ⟨rfl, rfl⟩
  · intro hterm
    unfold cancel_ai_job
    rw [hterm]
    exact ⟨_, rfl⟩
  · intro hterm
    unfold cancel_ai_job
    rw [hterm]
    rfl

/-- Witness for C2 (amended): the error-variant run leaves `completed_at`
unset, and cancelling an already COMPLETED job returns the 400 error. -/
theorem C2_witness :
    (((process_job sampleJob (some sampleConfig) sampleEnvErr id id 1 2 3).1.completed_at).isSome ↔
      (process_job sampleJob (some sampleConfig) sampleEnvErr id id 1 2 3).1.status =
        .completed) ∧
    cancel_ai_job { sampleJob with status := .completed } 7 =
      .error (.bad_request ("Cannot cancel job in " ++
        AIJobStatus.completed.pyStr ++ " status")) :=
  ⟨(C2_completed_at_at_completed_or_cancelled sampleJob (some sampleConfig) sampleEnvErr
      id id 1 2 3 0 rfl).1,
   (C2_completed_at_at_completed_or_cancelled { sampleJob with status := .completed }
      (some sampleConfig) sampleEnvErr id id 1 2 3 7 rfl).2.2.2 rfl⟩

/-- Claim C3 counterexample: `create_ai_job` accepts a submission whose
configuration is owned by the caller but inactive and persists a PENDING job
instead of returning 404 — the lookup (ai_config.py lines 342-346) never
filters on `is_active`. -/
theorem C3_inactive_config_accepted :
    sampleInactiveConfig.is_active = false ∧
    (create_ai_job [sampleInactiveConfig] "user-1"
        ⟨"cfg-1", .content_creator, "Explain binary search", none⟩ "job-9" 5).map
      (fun j => j.status) = .ok .pending :=
  ⟨rfl, rfl⟩

/-- Claim C3 (amended): job submission validates ownership only: it returns
the 404 error exactly when no configuration with the requested id belongs to
the caller, and otherwise persists exactly one new PENDING job referencing the
matching configuration, whether or not it is active. -/
theorem C3_submission_validates_ownership_only (configs : List AIConfiguration)
    (user : String) (req : AIJobCreateReq) (new_id : String) (t : Nat) :
    match create_ai_job configs user req new_id t with
    | .error e =>
      e = .not_found "AI configuration not found" ∧
      configs.find? (fun c => c.id == req.configuration_id && c.user_id == user) = none
    | .ok job =>
      job.status = .pending ∧ job.user_id = user ∧
      ∃ c ∈ configs, c.id = req.configuration_id ∧ c.user_id = user ∧
        job.configuration_id = c.id := by
  unfold create_ai_job
  cases hF : configs.find? (fun c => c.id == req.configuration_id && c.user_id == user) with
  | none => exact ⟨rfl, rfl⟩
  | some c =>
    have hmem := List.mem_of_find?_eq_some hF
    have hprop := List.find?_some hF
    simp only [Bool.and_eq_true, beq_iff_eq] at hprop
    exact ⟨rfl, rfl, c, hmem, hprop.1, hprop.2, rfl⟩

/-- Claim C4 counterexample: a content_editor job with no `block_id` in its
metadata is assigned RUNNING before the validation error is raised — the
status-assignment trace is [RUNNING, FAILED], refuting "the job record
undergoes no status change". -/
theorem C4_running_assigned_before_validation :
    (process_job sampleEditorJob (some sampleConfig) sampleEnvOk id id 1 2 3).2 =
      [.running, .failed] ∧
    (process_job sampleEditorJob (some sampleConfig) sampleEnvOk id id 1 2 3).1.status =
      .failed ∧
    (process_job sampleEditorJob (some sampleConfig) sampleEnvOk id id 1 2 3).1.error_message =
      some "block_id required in input_metadata for content editor" :=
  ⟨rfl, rfl, rfl⟩

/-- Claim C4 (amended): for every content_editor job missing the target block
identifier, the ValueError is raised inside the task template only after
`process_job` has already set the job RUNNING; the run ends FAILED carrying
the validation message, with status-assignment trace [RUNNING, FAILED]. -/
theorem C4_editor_validation_after_running (job : AIJob) (config : AIConfiguration)
    (env : ExecEnv) (dk ge : String → String) (t1 t2 t3 : Nat)
    (htype : job.job_type = .content_editor)
    (hmeta : py_truthy_opt job.meta_block_id = false) :
    process_job job (some config) env dk ge t1 t2 t3 =
      (process_job_failure_epilogue (process_job_start job t1)
        "block_id required in input_metadata for content editor" t3,
       [.running, .failed]) := by
  have hd : dispatch_job (process_job_start job t1) config env dk ge =
      .error "block_id required in input_metadata for content editor" := by
    unfold dispatch_job
    have : (process_job_start job t1).job_type = AIAgentType.content_editor := htype
    rw [this]
    exact process_content_editor_missing_block_id _ _ _ _ _ hmeta
  simp only [process_job, hd]

/-- Witness for C4 (amended) at the concrete metadata-less editor job. -/
theorem C4_witness :
    process_job sampleEditorJob (some sampleConfig) sampleEnvOk id id 1 2 3 =
      (process_job_failure_epilogue (process_job_start sampleEditorJob 1)
        "block_id required in input_metadata for content editor" 3,
       [.running, .failed]) :=
  C4_editor_validation_after_running sampleEditorJob sampleConfig sampleEnvOk
    id id 1 2 3 rfl rfl

/-- Claim C5 counterexample: for a vendor exception of the authentication
class, the Anthropic adapter returns the raw message in its error variant
while the OpenAI-compatible handler rewrites it — so the rewriting does not
happen "in every adapter". -/
theorem C5_anthropic_does_not_rewrite :
    (anthropic_generate (.raises "Error code: 401 - invalid x-api-key")).error =
      some "Error code: 401 - invalid x-api-key" ∧
    (openai_generate (.raises "Error code: 401 - invalid x-api-key")).error =
      some "Authentication failed. Please check your API key." ∧
    "Error code: 401 - invalid x-api-key" ≠
      "Authentication failed. Please check your API key." :=
  ⟨rfl, by decide, by decide⟩

/-- Claim C5 (amended): no adapter's `generate` raises — every vendor
exception becomes the error variant of the result — and the handler shared by
`OpenAIProvider` and `CustomProvider` rewrites the message for the three
common classes (authentication failure, unknown model, rate limiting), while
the native Anthropic adapter stores the exception message unchanged. -/
theorem C5_generate_error_normalization :
    (∀ msg : String,
      openai_generate (.raises msg) =
        { error := some (normalize_openai_error msg), content := none,
          finish_reason := none, tokens_used := ⟨0, 0, 0⟩ } ∧
      custom_generate (.raises msg) =
        { error := some (normalize_openai_error msg), content := none,
          finish_reason := none, tokens_used := ⟨0, 0, 0⟩ } ∧
      anthropic_generate (.raises msg) =
        { error := some msg, content := none,
          finish_reason := none, tokens_used := ⟨0, 0, 0⟩ }) ∧
    (∀ msg : String, str_contains msg "401" = true →
      normalize_openai_error msg = "Authentication failed. Please check your API key.") ∧
    (∀ msg : String, str_contains msg "401" = false →
      str_contains (py_lower msg) "authentication" = false →
      str_contains msg "404" = true →
      normalize_openai_error msg = "Model not found. Please check the model name.") ∧
    (∀ msg : String, str_contains msg "401" = false →
      str_contains (py_lower msg) "authentication" = false →
      str_contains msg "404" = false →
      str_contains (py_lower msg) "rate" = true → str_contains (py_lower msg) "limit" = true →
      normalize_openai_error msg = "Rate limit exceeded. Please try again later.") := by
  refine ⟨fun msg => ⟨rfl, rfl, rfl⟩, fun msg h => ?_, fun msg h1 h2 h3 => ?_,
    fun msg h1 h2 h3 h4 h5 => ?_⟩ <;>
    simp [normalize_openai_error, *]

/-- Witness for C5 (amended) at a concrete rate-limit exception message. -/
theorem C5_witness :
    openai_generate (.raises "rate limit hit") =
      { error := some (normalize_openai_error "rate limit hit"), content := none,
        finish_reason := none, tokens_used := ⟨0, 0, 0⟩ } ∧
    normalize_openai_error "rate limit hit" = "Rate limit exceeded. Please try again later." :=
  ⟨(C5_generate_error_normalization.1 "rate limit hit").1,
   C5_generate_error_normalization.2.2.2 "rate limit hit"
     (by decide) (by decide) (by decide) (by decide) (by decide)⟩

/-- Claim C6: assuming the documented round-trip contract of the external
Fernet cipher (decrypt inverts encrypt on byte strings, outputs are non-empty
byte strings), the vault wrapper satisfies: `encrypt ""` is `""`; decrypt
after encrypt is the identity on every non-empty ASCII string; and `decrypt`
never raises, returning `""` whenever base64 decoding fails or the cipher
rejects the token as tampered. -/
theorem C6_vault_roundtrip (cipher : FernetCipher)
    (h_round : ∀ bs, (∀ x ∈ bs, x < 256) → cipher.dec (cipher.enc bs) = some bs)
    (h_bytes : ∀ bs, (∀ x ∈ bs, x < 256) → ∀ x ∈ cipher.enc bs, x < 256)
    (h_ne : ∀ bs, cipher.enc bs ≠ []) :
    EncryptionService.encrypt cipher "" = "" ∧
    (∀ s : String, s ≠ "" → (∀ c ∈ s.data, c.toNat < 128) →
      EncryptionService.decrypt cipher (EncryptionService.encrypt cipher s) = s) ∧
    (∀ t : String, b64decodeList t.data = none → EncryptionService.decrypt cipher t = "") ∧
    (∀ t : String, ∀ bs, b64decodeList t.data = some bs → cipher.dec bs = none →
      EncryptionService.decrypt cipher t = "") := by
  refine ⟨rfl, ?_, ?_, ?_⟩
  · intro s hs hascii
    have hbytes : ∀ x ∈ str_to_bytes s, x < 256 := by
      intro x hx
      simp only [str_to_bytes, List.mem_map] at hx
      obtain ⟨c, hc, rfl⟩ := hx
      have := hascii c hc
      omega
    have henc_ne : b64encodeList (cipher.enc (str_to_bytes s)) ≠ [] :=
      b64encodeList_ne_nil (h_ne _)
    unfold EncryptionService.encrypt
    rw [if_neg hs]
    unfold EncryptionService.decrypt
    rw [if_neg (fun hcontra => henc_ne (congrArg String.data hcontra))]
    have hdata : (String.mk (b64encodeList (cipher.enc (str_to_bytes s)))).data =
        b64encodeList (cipher.enc (str_to_bytes s)) := rfl
    rw [hdata, b64_roundtrip _ (h_bytes _ hbytes)]
    simp only [Option.some_bind]
    rw [h_round _ hbytes]
    simp only [Option.some_bind]
    rw [bytes_to_str_str_to_bytes s hascii]
    rfl
  · intro t ht
    unfold EncryptionService.decrypt
    rcases eq_or_ne t "" with rfl | hne
    · rfl
    · rw [if_neg hne, ht]
      rfl
  · intro t bs hdec hfail
    unfold EncryptionService.decrypt
    rcases eq_or_ne t "" with rfl | hne
    · rfl
    · rw [if_neg hne, hdec]
      simp only [Option.some_bind]
      rw [hfail]
      rfl

/-- Witness for C6 with a concrete cipher instance satisfying the contract. -/
theorem C6_vault_roundtrip_witness :
    EncryptionService.decrypt toyCipher (EncryptionService.encrypt toyCipher "sk-abc123") =
      "sk-abc123" ∧
    EncryptionService.encrypt toyCipher "" = "" ∧
    EncryptionService.decrypt toyCipher "!!corrupted!!" = "" :=
  have h_round : ∀ bs, (∀ x ∈ bs, x < 256) → toyCipher.dec (toyCipher.enc bs) = some bs :=
    fun _ _ => rfl
  have h_bytes : ∀ bs, (∀ x ∈ bs, x < 256) → ∀ x ∈ toyCipher.enc bs, x < 256 := by
    intro bs hv x hx
    rcases List.mem_cons.mp hx with rfl | hmem
    · omega
    · exact hv x hmem
  have h_ne : ∀ bs, toyCipher.enc bs ≠ [] := fun bs => List.cons_ne_nil _ _
  ⟨(C6_vault_roundtrip toyCipher h_round h_bytes h_ne).2.1 "sk-abc123" (by decide) (by decide),
   (C6_vault_roundtrip toyCipher h_round h_bytes h_ne).1,
   (C6_vault_roundtrip toyCipher h_round h_bytes h_ne).2.2.1 "!!corrupted!!" (by decide)⟩

/-- Claim C7: the confidence score attached to a created suggestion always
lies within [0.30, 0.95]: the computed score (base 0.7 with the fixed
increments and the short-content penalty) is clamped into that range, and the
fixed edit-suggestion score 0.85 also lies within it. -/
theorem C7_confidence_score_in_range :
    (∀ (content : String) (existing_blocks : List String),
      3/10 ≤ calculate_confidence_score content existing_blocks ∧
      calculate_confidence_score content existing_blocks ≤ 19/20) ∧
    3/10 ≤ edit_suggestion_confidence_score ∧
    edit_suggestion_confidence_score ≤ 19/20 := by
  refine ⟨fun content existing_blocks => ?_, by norm_num [edit_suggestion_confidence_score],
    by norm_num [edit_suggestion_confidence_score]⟩
  unfold calculate_confidence_score
  exact clamp_bounds _

/-- Claim C8: the factory maps "groq" to the shared OpenAI-compatible adapter
with base URL `https://api.groq.com/openai/v1` and "anthropic" to the native
Anthropic adapter, and for every identifier outside its table it raises the
unknown-provider error rather than returning an adapter. -/
theorem C8_provider_factory_resolution (api_key : Option String) (model_name : String)
    (api_endpoint : Option String) :
    create_ai_provider "groq" api_key model_name api_endpoint =
      .ok (.openaiProvider api_key model_name (some "https://api.groq.com/openai/v1")) ∧
    create_ai_provider "anthropic" api_key model_name api_endpoint =
      .ok (.anthropicProvider api_key model_name) ∧
    (∀ p : String, p ∉ supported_provider_ids →
      create_ai_provider p api_key model_name api_endpoint =
        .error ("Unknown provider type: " ++ p ++
          ". Supported providers: openai, anthropic, groq, together_ai, openrouter, and many more.")) := by
  refine ⟨rfl, rfl, fun p hp => ?_⟩
  simp only [supported_provider_ids, List.mem_cons, List.not_mem_nil, or_false, not_or] at hp
  obtain ⟨h1, h2, h3, h4, h5, h6, h7, h8, h9, h10, h11, h12, h13, h14, h15, h16, h17, h18,
    h19, h20, h21, h22, h23⟩ := hp
  simp [create_ai_provider, h1, h2, h3, h4, h5, h6, h7, h8, h9, h10, h11, h12, h13, h14,
    h15, h16, h17, h18, h19, h20, h21, h22, h23]

/-- Witness for C8 at a concrete key/model and an unknown identifier. -/
theorem C8_witness :
    create_ai_provider "groq" (some "gsk-1") "llama-3.3-70b-versatile" none =
      .ok (.openaiProvider (some "gsk-1") "llama-3.3-70b-versatile"
        (some "https://api.groq.com/openai/v1")) ∧
    create_ai_provider "no_such_vendor" (some "gsk-1") "llama-3.3-70b-versatile" none =
      .error ("Unknown provider type: " ++ "no_such_vendor" ++
        ". Supported providers: openai, anthropic, groq, together_ai, openrouter, and many more.") :=
  ⟨(C8_provider_factory_resolution (some "gsk-1") "llama-3.3-70b-versatile" none).1,
   (C8_provider_factory_resolution (some "gsk-1") "llama-3.3-70b-versatile" none).2.2
     "no_such_vendor" (by decide)⟩

/-- Claim C9: `send_personal_message` delivers the message exactly to the
target user's registered connections on which the send succeeds and to no
other user's connection; a send failure removes just that connection from the
registry, leaves every other user's entry untouched and does not prevent
delivery to the user's remaining connections; the method is total (never
raises). -/
theorem C9_send_personal_message_spec (m : ConnectionManager) (ok : Nat → Bool)
    (uid : String) (hWF : m.WellFormed) :
    (m.send_personal_message ok uid).2 = (m.userConns uid).filter ok ∧
    (∀ v, v ≠ uid → (m.send_personal_message ok uid).1.userConns v = m.userConns v) ∧
    (m.send_personal_message ok uid).1.userConns uid = (m.userConns uid).filter ok := by
  obtain ⟨hkeys, hent⟩ := hWF
  unfold ConnectionManager.send_personal_message
  cases hF : m.active_connections.find? (fun p => p.1 == uid) with
  | none =>
    have hU : m.userConns uid = [] := by
      unfold ConnectionManager.userConns
      rw [hF]
      rfl
    simp [hU]
  | some entry =>
    have hmem := List.mem_of_find?_eq_some hF
    have hkey : entry.1 = uid := by simpa using List.find?_some hF
    have hU : m.userConns uid = entry.2 := by
      unfold ConnectionManager.userConns
      rw [hF]
      rfl
    have hnd : entry.2.Nodup := (hent entry hmem).1
    have hown : ∀ c ∈ entry.2, m.ownerOf c = some uid := by
      intro c hc
      rw [← hkey]
      exact (hent entry hmem).2 c hc
    obtain ⟨h1, h2, h3⟩ := send_loop ok uid entry.2 m [] hnd hkeys hown
    refine ⟨by rw [h1, hU]; rfl, fun v hv => h2 v hv, ?_⟩
    rw [h3, hU]
    refine List.filter_congr (fun x hx => ?_)
    have hcx : entry.2.contains x = true := List.elem_eq_true_of_mem hx
    rw [hcx]
    simp

/-- Witness for C9: two connections for one user, one failing send. -/
theorem C9_send_personal_message_witness :
    (sampleRegistry.send_personal_message (fun c => c != 1) "alice").2 =
      (sampleRegistry.userConns "alice").filter (fun c => c != 1) ∧
    (sampleRegistry.send_personal_message (fun c => c != 1) "alice").1.userConns "bob" =
      sampleRegistry.userConns "bob" ∧
    (sampleRegistry.send_personal_message (fun c => c != 1) "alice").1.userConns "alice" =
      (sampleRegistry.userConns "alice").filter (fun c => c != 1) :=
  have h := C9_send_personal_message_spec sampleRegistry (fun c => c != 1) "alice" (by decide)
  ⟨h.1, h.2.1 "bob" (by decide), h.2.2⟩

/-- Claim C10: for configurations with a stored encrypted credential, the
content_researcher and course_designer templates hand the encrypted string
itself to the provider factory — no decryption is applied on those paths —
while the content_creator and content_editor templates decrypt it first,
falling back to the provider environment variable when the decrypted value is
empty. -/
theorem C10_researcher_designer_pass_encrypted_key
    (dk ge : String → String) (config : AIConfiguration) (k : String)
    (hk : config.api_key_encrypted = some k) (hne : k ≠ "") :
    researcher_api_key config = some k ∧
    course_designer_api_key config = some k ∧
    creator_api_key dk ge config =
      py_or_str (some (dk k)) (ge (py_upper config.provider ++ "_API_KEY")) ∧
    editor_api_key dk ge config =
      py_or_str (some (dk k)) (ge (py_upper config.provider ++ "_API_KEY")) := by
  have ht : py_truthy_opt config.api_key_encrypted = true := by
    rw [hk]; simpa [py_truthy_opt] using hne
  refine ⟨hk, hk, ?_, ?_⟩ <;>
    simp [creator_api_key, editor_api_key, ht, hk, py_truthy_opt, hne]

/-- Witness for C10 at a concrete configuration and decryption function. -/
theorem C10_witness :
    researcher_api_key sampleConfig = some "enc-key" ∧
    course_designer_api_key sampleConfig = some "enc-key" ∧
    creator_api_key (fun s => "dec-" ++ s) (fun _ => "env-key") sampleConfig =
      py_or_str (some ("dec-" ++ "enc-key"))
        ((fun _ => "env-key") (py_upper sampleConfig.provider ++ "_API_KEY")) ∧
    editor_api_key (fun s => "dec-" ++ s) (fun _ => "env-key") sampleConfig =
      py_or_str (some ("dec-" ++ "enc-key"))
        ((fun _ => "env-key") (py_upper sampleConfig.provider ++ "_API_KEY")) :=
  C10_researcher_designer_pass_encrypted_key (fun s => "dec-" ++ s) (fun _ => "env-key")
    sampleConfig "enc-key" rfl (by decide)
